import Mathlib

/-!
Verification of the voice-assistant turn-taking core (`main.py`).

Strings are embedded as `List Char`.  Time stamps are integers.  External
collaborators (microphone capture, speech recognition, the answer service,
the display surface) are embedded as environment inputs supplied to each
loop iteration, with their failure modes made explicit.
-/

namespace AudioAssistant

/-- Whitespace characters stripped by Python `str.strip()` (ASCII range),
which is also the ASCII part of the regex class `\s`. -/
def isPySpace (c : Char) : Bool :=
  c = ' ' || c = '\t' || c = '\n' || c = '\r' || c = '\x0B' || c = '\x0C'

/-- Python `str.strip()`: drop leading and trailing whitespace. -/
def pyStrip (s : List Char) : List Char :=
  ((s.dropWhile isPySpace).reverse.dropWhile isPySpace).reverse

/-- Python `str.lower()` (ASCII behaviour suffices here). -/
def pyLower (s : List Char) : List Char :=
  s.map Char.toLower

/-- The `question_starters` list of `is_question` (main.py lines 109-113). -/
def question_starters : List (List Char) :=
  ["what", "why", "how", "when", "where", "who", "which",
   "can", "could", "would", "should", "is", "are", "do", "does",
   "am", "was", "were", "have", "has", "had", "will", "shall"].map String.toList

/-- Rule 2: `any(text.startswith(starter) for starter in question_starters)`. -/
def startsWithStarter (t : List Char) : Bool :=
  question_starters.any fun w => w.isPrefixOf t

/-- Rule 3: `text.endswith('?')`. -/
def endsWithQmark (t : List Char) : Bool :=
  match t.getLast? with
  | some c => c = '?'
  | none => false

/-- The alternatives of the inverted-auxiliary regex (main.py line 124). -/
def inverted_aux_words : List (List Char) :=
  ["are", "can", "could", "do", "does", "have", "has", "will", "shall",
   "should", "would", "am", "is"].map String.toList

/-- Rule 4: `re.match(r'^(are|can|...|is)\s', text)` — some alternative is a
prefix of the text and is immediately followed by a whitespace character. -/
def matchInvertedAux (t : List Char) : Bool :=
  inverted_aux_words.any fun w =>
    w.isPrefixOf t &&
      (match t.drop w.length with
       | c :: _ => isPySpace c
       | [] => false)

/-- Apostrophe, built from its code point to keep source literals simple. -/
def apos : Char := Char.ofNat 39

/-- The `question_phrases` list of `is_question` (main.py lines 128-131). -/
def question_phrases : List (List Char) :=
  ["tell me about".toList,
   "i".toList ++ [apos] ++ "d like to know".toList,
   "can you explain".toList,
   "i was wondering".toList,
   "do you know".toList,
   "what about".toList,
   "how about".toList]

/-- Python substring containment `p in t`: some suffix of `t` has `p` as a
prefix. -/
def containsSub (p : List Char) : List Char → Bool
  | [] => p.isEmpty
  | c :: rest => p.isPrefixOf (c :: rest) || containsSub p rest

/-- Rule 5: `any(phrase in text for phrase in question_phrases)`. -/
def containsPhrase (t : List Char) : Bool :=
  question_phrases.any fun p => containsSub p t

/-- `AudioAssistant.is_question` (main.py lines 104-136): lowercase and strip,
then the disjunction of rules 2-5, else `False`. -/
def is_question (text : List Char) : Bool :=
  let t := pyStrip (pyLower text)
  startsWithStarter t || endsWithQmark t || matchInvertedAux t || containsPhrase t

/-- `is_question` with rule 4 (the inverted-auxiliary regex) removed;
used to settle the redundancy claim. -/
def is_question_no_aux (text : List Char) : Bool :=
  let t := pyStrip (pyLower text)
  startsWithStarter t || endsWithQmark t || containsPhrase t

/-- `is_question` with rule 2 (the starter-word check) removed; used to show
certain inputs are accepted solely because of raw prefix matching. -/
def is_question_no_starter (text : List Char) : Bool :=
  let t := pyStrip (pyLower text)
  endsWithQmark t || matchInvertedAux t || containsPhrase t

/-- The normalization step (main.py lines 86-88):
`capitalized_text = text[0].upper() + text[1:]`, then append `'?'` unless it
already ends with one.  `text[0]` on an empty string raises `IndexError`,
modelled as `none`. -/
def normalizeQuestion (text : List Char) : Option (List Char) :=
  match text with
  | [] => none
  | c :: rest =>
    let cap := Char.toUpper c :: rest
    some (if endsWithQmark cap then cap else cap ++ ['?'])

/-- Result of the remote answer round trip, before JSON serialization:
response text plus optional encoded audio payload. -/
structure AIResponse where
  text : List Char
  audio : Option (List Char)
deriving DecidableEq

/-- The two remote collaborators used by `get_ai_response`: the chat
completion (question text to response content) and text-to-speech
(response text to encoded audio bytes).  `Except` carries the message of a
raised exception. -/
structure AIEnv where
  chat : List Char → Except (List Char) (List Char)
  tts : List Char → Except (List Char) (List Char)

/-- The error text produced by the handler in `get_ai_response`
(main.py line 167). -/
def aiErrorLead : List Char := "Error getting AI response: ".toList

/-- `AudioAssistant.get_ai_response` (main.py lines 138-167): request a chat
completion, strip the content; if TTS is enabled also request speech audio;
any exception is caught and converted to an error-text answer with no
audio.  Total by construction: it never propagates a failure. -/
def get_ai_response (env : AIEnv) (tts_enabled : Bool) (question : List Char) :
    AIResponse :=
  match env.chat question with
  | .error e => ⟨aiErrorLead ++ e, none⟩
  | .ok content =>
    let text_response := pyStrip content
    if tts_enabled then
      match env.tts text_response with
      | .error e => ⟨aiErrorLead ++ e, none⟩
      | .ok audioBytes => ⟨text_response, some audioBytes⟩
    else ⟨text_response, none⟩

/-- Session state shared between the facade and the loop (fields of the
`AudioAssistant` object).  `client` records whether an OpenAI client is
configured; it is set exactly when a credential has been supplied. -/
structure AState where
  is_listening : Bool
  client : Bool
  api_key : Option (List Char)
  tts_enabled : Bool
  is_speaking : Bool
  audio_playing : Bool
deriving DecidableEq

/-- Result of `toggle_listening`: the returned boolean, the updated state,
and whether the listen-and-process loop thread was started. -/
structure ToggleResult where
  retVal : Bool
  state : AState
  loopStarted : Bool
deriving DecidableEq

/-- `AudioAssistant.toggle_listening` (main.py lines 60-68): without a client
return `False` unchanged; otherwise flip `is_listening` and start the loop
exactly when the new value is `true`. -/
def toggle_listening (s : AState) : ToggleResult :=
  if s.client = false then ⟨false, s, false⟩
  else
    let l := !s.is_listening
    ⟨l, { s with is_listening := l }, l⟩

/-- `AudioAssistant.set_api_key` (main.py lines 42-47), persistence aside. -/
def set_api_key (s : AState) (k : List Char) : AState :=
  { s with api_key := some k, client := true }

/-- `AudioAssistant.delete_api_key` (main.py lines 49-54), persistence aside. -/
def delete_api_key (s : AState) : AState :=
  { s with api_key := none, client := false }

/-- `AudioAssistant.has_api_key` (main.py lines 56-58). -/
def has_api_key (s : AState) : Bool :=
  s.api_key.isSome

/-- `speaking_ended` notification (main.py lines 204-206). -/
def speaking_ended (s : AState) : AState :=
  { s with is_speaking := false }

/-- `audio_playback_started` notification (main.py lines 208-210). -/
def audio_playback_started (s : AState) : AState :=
  { s with audio_playing := true }

/-- `audio_playback_ended` notification (main.py lines 212-215). -/
def audio_playback_ended (s : AState) : AState :=
  { s with audio_playing := false, is_speaking := false }

/-- State carried across loop iterations: the shared session state plus the
loop-local `last_speak_time` (main.py line 73, initially 0). -/
structure LoopState where
  st : AState
  last_speak_time : ℤ
deriving DecidableEq

/-- Outcome of one capture-and-transcribe attempt (the `listen` and
`recognize_google` calls, main.py lines 80-83). -/
inductive CaptureOutcome where
  | waitTimeout
  | unknownValue
  | failure (msg : List Char)
  | ok (text : List Char)
deriving DecidableEq

/-- Environment inputs consumed by a single loop iteration: the clock value
read at the top, the capture outcome, whether each of the two `update_ui`
calls raises (`some msg` is an exception with message `msg`), the remote
answer environment, and the clock value read after the answer completes. -/
structure IterInput where
  now : ℤ
  capture : CaptureOutcome
  qPublish : Option (List Char)
  aiEnv : AIEnv
  aPublish : Option (List Char)
  endTime : ℤ

/-- Observable actions of one loop iteration, in order. -/
inductive Event where
  | captureAttempt
  | publishQ (line : List Char)
  | publishA (resp : AIResponse)
  | publishErr (line : List Char)
  | idleSleep
deriving DecidableEq

/-- The error line published by the catch-all handler (main.py line 100). -/
def errLine (msg : List Char) : List Char :=
  "An error occurred: ".toList ++ msg

/-- `cooldown_time = 2` (main.py line 72). -/
def cooldown_time : ℤ := 2

/-- The suppression guard (main.py line 77):
`not is_speaking and not audio_playing and (current_time - last_speak_time) > cooldown_time`. -/
def guardPasses (s : LoopState) (now : ℤ) : Bool :=
  !s.st.is_speaking && !s.st.audio_playing &&
    decide (cooldown_time < now - s.last_speak_time)

/-- One iteration of the `while self.is_listening` body
(main.py lines 75-102), as a function from the pre-state and the iteration
environment to the post-state and the ordered list of observable events. -/
def loopIter (s : LoopState) (inp : IterInput) : LoopState × List Event :=
  if guardPasses s inp.now then
    match inp.capture with
    | .waitTimeout => (s, [.captureAttempt])
    | .unknownValue => (s, [.captureAttempt])
    | .failure msg => (s, [.captureAttempt, .publishErr (errLine msg)])
    | .ok text =>
      if is_question text then
        match normalizeQuestion text with
        | none =>
          (s, [.captureAttempt, .publishErr (errLine "string index out of range".toList)])
        | some cap =>
          match inp.qPublish with
          | some e => (s, [.captureAttempt, .publishErr (errLine e)])
          | none =>
            let resp := get_ai_response inp.aiEnv s.st.tts_enabled cap
            match inp.aPublish with
            | some e =>
              ({ s with st := { s.st with is_speaking := true } },
               [.captureAttempt, .publishQ ("Q: ".toList ++ cap), .publishErr (errLine e)])
            | none =>
              ({ s with st := { s.st with is_speaking := false },
                        last_speak_time := inp.endTime },
               [.captureAttempt, .publishQ ("Q: ".toList ++ cap), .publishA resp])
      else (s, [.captureAttempt])
  else (s, [.idleSleep])

/-- Whether an iteration produced a capture attempt. -/
def hasCapture (evs : List Event) : Bool :=
  evs.any fun e =>
    match e with
    | .captureAttempt => true
    | _ => false

/-- The question lines published by an iteration (first arguments of
`update_ui` calls of the form `update_ui(q, "")` announcing a question). -/
def questionLines (evs : List Event) : List (List Char) :=
  evs.filterMap fun e =>
    match e with
    | .publishQ l => some l
    | _ => none

/-- Whether an iteration runs a complete answer round trip, i.e. reaches the
`last_speak_time = time.time()` update (main.py line 94): the guard passes,
capture succeeds, the transcript is a question, and neither `update_ui`
call raises. -/
def completesAnswer (s : LoopState) (inp : IterInput) : Bool :=
  guardPasses s inp.now &&
    match inp.capture with
    | .ok text =>
      is_question text && (normalizeQuestion text).isSome &&
        inp.qPublish.isNone && inp.aPublish.isNone
    | _ => false

/-- Iterate the loop body over a list of per-iteration environments. -/
def runState (s : LoopState) (L : List IterInput) : LoopState :=
  L.foldl (fun s inp => (loopIter s inp).1) s

/-! Concrete fixtures used by witnesses and counterexamples. -/

/-- A remote answer environment in which both collaborators succeed. -/
def okAIEnv : AIEnv := ⟨fun _ => .ok "Yes.".toList, fun _ => .ok "QVVESU8=".toList⟩

/-- A listening session that is neither speaking nor playing audio, with the
cooldown long expired. -/
def readyState : LoopState := ⟨⟨true, true, some "key".toList, true, false, false⟩, 0⟩

/-- A session in which the assistant is still marked as speaking. -/
def stuckLoopState : LoopState := ⟨⟨true, true, some "key".toList, true, true, false⟩, 0⟩

/-- An iteration environment delivering a recognized question with every
collaborator succeeding; the answer completes at time 20. -/
def inputWeather : IterInput :=
  ⟨10, .ok "what is the weather".toList, none, okAIEnv, none, 20⟩

/-- A later iteration environment, again fully successful. -/
def inputLater : IterInput :=
  ⟨30, .ok "what about lunch".toList, none, okAIEnv, none, 31⟩

/-- An iteration environment delivering the transcript "are you there". -/
def inputAreYouThere : IterInput :=
  ⟨10, .ok "are you there".toList, none, okAIEnv, none, 11⟩

/-- An iteration environment in which the second `update_ui` call (the one
publishing the answer) raises. -/
def inputAnswerUIFails : IterInput :=
  ⟨10, .ok "are you there".toList, none, okAIEnv, some "ui closed".toList, 11⟩

/-! Helper lemmas about the loop body. -/

theorem loopIter_guard_false (s : LoopState) (inp : IterInput)
    (h : guardPasses s inp.now = false) :
    loopIter s inp = (s, [Event.idleSleep]) := by
  simp [loopIter, h]

theorem guardPasses_of_speaking (s : LoopState) (now : ℤ)
    (h : s.st.is_speaking = true) : guardPasses s now = false := by
  simp [guardPasses, h]

theorem hasCapture_loopIter (s : LoopState) (inp : IterInput) :
    hasCapture (loopIter s inp).2 = guardPasses s inp.now := by
  unfold loopIter
  cases hg : guardPasses s inp.now with
  | false => simp [hasCapture]
  | true =>
    cases hc : inp.capture with
    | waitTimeout => simp [hasCapture]
    | unknownValue => simp [hasCapture]
    | failure m => simp [hasCapture]
    | ok text =>
      cases hq : is_question text with
      | false => simp [hasCapture, hq]
      | true =>
        cases hn : normalizeQuestion text with
        | none => simp [hasCapture, hq, hn]
        | some cap =>
          cases hqp : inp.qPublish with
          | some e => simp [hasCapture, hq, hn, hqp]
          | none =>
            cases hap : inp.aPublish with
            | some e => simp [hasCapture, hq, hn, hqp, hap]
            | none => simp [hasCapture, hq, hn, hqp, hap]

theorem loopIter_last_speak_time (s : LoopState) (inp : IterInput) :
    (loopIter s inp).1.last_speak_time =
      if completesAnswer s inp = true then inp.endTime else s.last_speak_time := by
  unfold loopIter completesAnswer
  cases hg : guardPasses s inp.now with
  | false => simp
  | true =>
    cases hc : inp.capture with
    | waitTimeout => simp
    | unknownValue => simp
    | failure m => simp
    | ok text =>
      cases hq : is_question text with
      | false => simp [hq]
      | true =>
        cases hn : normalizeQuestion text with
        | none => simp [hq, hn]
        | some cap =>
          cases hqp : inp.qPublish with
          | some e => simp [hq, hn, hqp]
          | none =>
            cases hap : inp.aPublish with
            | some e => simp [hq, hn, hqp, hap]
            | none => simp [hq, hn, hqp, hap]

theorem runState_cons (s : LoopState) (inp : IterInput) (L : List IterInput) :
    runState s (inp :: L) = runState (loopIter s inp).1 L := rfl

theorem runState_no_answer (L : List IterInput) (s : LoopState)
    (h : ∀ i (hi : i < L.length),
      completesAnswer (runState s (L.take i)) (L.get ⟨i, hi⟩) = false) :
    (runState s L).last_speak_time = s.last_speak_time := by
  induction L generalizing s with
  | nil => rfl
  | cons inp rest ih =>
    have h0 : completesAnswer s inp = false := by
      have := h 0 (by simp)
      simpa [runState] using this
    have hstep : (loopIter s inp).1.last_speak_time = s.last_speak_time := by
      rw [loopIter_last_speak_time, h0]
      simp
    have hrest : (runState (loopIter s inp).1 rest).last_speak_time =
        (loopIter s inp).1.last_speak_time := by
      apply ih
      intro i hi
      have := h (i + 1) (by simpa using Nat.succ_lt_succ hi)
      simpa [runState, List.take_succ_cons] using this
    rw [runState_cons, hrest, hstep]

/-! Helper lemmas for the classifier rules. -/

theorem aux_words_subset_starters :
    ∀ w ∈ inverted_aux_words, w ∈ question_starters := by decide

theorem matchInvertedAux_imp_starter (t : List Char)
    (h : matchInvertedAux t = true) : startsWithStarter t = true := by
  unfold matchInvertedAux at h
  rw [List.any_eq_true] at h
  obtain ⟨w, hw, hpred⟩ := h
  rw [Bool.and_eq_true] at hpred
  unfold startsWithStarter
  exact List.any_eq_true.mpr ⟨w, aux_words_subset_starters w hw, hpred.1⟩

/-! The claims. -/

/-- C1: in every iteration of the listen-and-process loop, if `is_speaking`
is true, or `audio_playing` is true, or the cooldown has not elapsed since
the last completed answer, no microphone capture attempt occurs; and as soon
as an iteration starts with both flags false and the cooldown elapsed, a
capture attempt does occur in that iteration. -/
theorem guard_blocks_and_enables_capture (s : LoopState) (inp : IterInput) :
    ((s.st.is_speaking = true ∨ s.st.audio_playing = true ∨
        ¬ cooldown_time < inp.now - s.last_speak_time) →
      hasCapture (loopIter s inp).2 = false) ∧
    (s.st.is_speaking = false → s.st.audio_playing = false →
      cooldown_time < inp.now - s.last_speak_time →
      hasCapture (loopIter s inp).2 = true) := by
  rw [hasCapture_loopIter]
  constructor
  · rintro (h | h | h) <;> simp [guardPasses, h]
  · intro h1 h2 h3
    simp [guardPasses, h1, h2, h3]

/-- Witness for C1: with the assistant marked as speaking no capture attempt
occurs, and in a quiet state past the cooldown one does. -/
theorem guard_blocks_and_enables_capture_witness :
    hasCapture (loopIter stuckLoopState inputWeather).2 = false ∧
    hasCapture (loopIter readyState inputWeather).2 = true :=
  ⟨(guard_blocks_and_enables_capture stuckLoopState inputWeather).1 (Or.inl rfl),
   (guard_blocks_and_enables_capture readyState inputWeather).2 rfl rfl (by decide)⟩

/-- C2 counterexample: for the transcript "are you there" the line actually
passed to the display surface is "Q: Are you there?", which is not equal to
"Are you there?". -/
theorem published_line_not_bare_cex :
    questionLines (loopIter readyState inputAreYouThere).2 =
      ["Q: Are you there?".toList] ∧
    "Q: Are you there?".toList ≠ "Are you there?".toList := by decide

/-- C2 amended: for the transcript "are you there", classified as a
question, the normalized question equals "Are you there?" (first character
capitalized, terminated with a question mark), and the line published to the
display surface is that normalized question preceded by the "Q: " display
tag, i.e. "Q: Are you there?". -/
theorem published_line_with_display_tag :
    is_question "are you there".toList = true ∧
    normalizeQuestion "are you there".toList = some "Are you there?".toList ∧
    questionLines (loopIter readyState inputAreYouThere).2 =
      ["Q: ".toList ++ "Are you there?".toList] := by decide

/-- C3: the classifier's concrete cases: "what is the weather",
"Is this working?" and "tell me about dogs" are questions; "I like dogs"
and the empty string are not. -/
theorem classifier_concrete_cases :
    is_question "what is the weather".toList = true ∧
    is_question "Is this working?".toList = true ∧
    is_question "tell me about dogs".toList = true ∧
    is_question "I like dogs".toList = false ∧
    is_question "".toList = false := by decide

/-- C4: without a configured client, `toggle_listening` returns `false`,
leaves the state (in particular the `is_listening` flag) unchanged, and does
not start the listen-and-process loop, so no capture or network work can
begin. -/
theorem toggle_without_credential (s : AState) (h : s.client = false) :
    toggle_listening s = ⟨false, s, false⟩ := by
  simp [toggle_listening, h]

/-- Witness for C4 at a concrete credential-free state. -/
theorem toggle_without_credential_witness :
    toggle_listening ⟨false, false, none, true, false, false⟩ =
      ⟨false, ⟨false, false, none, true, false, false⟩, false⟩ :=
  toggle_without_credential ⟨false, false, none, true, false, false⟩ rfl

/-- C5: whenever an iteration completes an answer (recording `endTime` as
the last-answer-completion time) and a later capture attempt occurs with no
intervening completed answer, the capturing iteration's clock reading is at
least the cooldown interval after `endTime`. -/
theorem cooldown_between_questions (s0 : LoopState) (inpA : IterInput)
    (L : List IterInput) (inpB : IterInput)
    (hA : completesAnswer s0 inpA = true)
    (hmid : ∀ i (hi : i < L.length),
      completesAnswer (runState (loopIter s0 inpA).1 (L.take i)) (L.get ⟨i, hi⟩) = false)
    (hB : hasCapture (loopIter (runState (loopIter s0 inpA).1 L) inpB).2 = true) :
    cooldown_time ≤ inpB.now - inpA.endTime := by
  have h1 : (loopIter s0 inpA).1.last_speak_time = inpA.endTime := by
    rw [loopIter_last_speak_time, if_pos hA]
  have h2 : (runState (loopIter s0 inpA).1 L).last_speak_time = inpA.endTime := by
    rw [runState_no_answer L _ hmid, h1]
  rw [hasCapture_loopIter] at hB
  have h4 : cooldown_time <
      inpB.now - (runState (loopIter s0 inpA).1 L).last_speak_time := by
    simp only [guardPasses, Bool.and_eq_true, decide_eq_true_eq] at hB
    exact hB.2
  rw [h2] at h4
  exact le_of_lt h4

/-- Witness for C5: a completed answer at time 20 followed immediately by a
capture attempt at time 30 respects the cooldown. -/
theorem cooldown_between_questions_witness :
    cooldown_time ≤ inputLater.now - inputWeather.endTime :=
  cooldown_between_questions readyState inputWeather [] inputLater
    (by decide) (fun i hi => absurd hi (Nat.not_lt_zero i)) (by decide)

/-- C6: `get_ai_response` is a total function (it never propagates a
failure), and on any failure of the remote round trip — the chat completion
raising, or text-to-speech raising when voice output is enabled — it
returns the error-description string as the answer text with no audio
payload. -/
theorem ai_response_error_handling (env : AIEnv) (tts : Bool) (q e t : List Char) :
    (env.chat q = .error e →
      get_ai_response env tts q = ⟨aiErrorLead ++ e, none⟩) ∧
    (env.chat q = .ok t → tts = true → env.tts (pyStrip t) = .error e →
      get_ai_response env tts q = ⟨aiErrorLead ++ e, none⟩) := by
  constructor
  · intro h
    simp [get_ai_response, h]
  · intro h1 h2 h3
    simp [get_ai_response, h1, h2, h3]

/-- Witness for C6: a chat-completion failure yields the error text and no
audio. -/
theorem ai_response_error_handling_witness :
    get_ai_response ⟨fun _ => .error "boom".toList, fun _ => .ok "A".toList⟩
        true "Hi?".toList =
      ⟨aiErrorLead ++ "boom".toList, none⟩ :=
  (ai_response_error_handling ⟨fun _ => .error "boom".toList, fun _ => .ok "A".toList⟩
    true "Hi?".toList "boom".toList []).1 rfl

/-- C7: the inverted-auxiliary regex rule is redundant: removing it leaves
the classifier's boolean unchanged on every input, because every text the
regex matches also starts with a member of the starter-word list. -/
theorem aux_rule_redundant :
    ∀ text : List Char, is_question_no_aux text = is_question text := by
  intro text
  simp only [is_question, is_question_no_aux]
  cases hm : matchInvertedAux (pyStrip (pyLower text)) with
  | false => simp [hm]
  | true => simp [matchInvertedAux_imp_starter _ hm]

/-- C8: the starter-word check is raw prefix matching with no word
boundary, so "island weather today" and "haddock recipes" are classified as
questions solely because their first characters spell "is" and "had":
with the starter rule removed neither is classified as a question. -/
theorem starter_rule_false_positives :
    is_question "island weather today".toList = true ∧
    is_question "haddock recipes".toList = true ∧
    is_question_no_starter "island weather today".toList = false ∧
    is_question_no_starter "haddock recipes".toList = false := by decide

/-- C9: if the guard passes, a question is accepted and announced, and then
publishing the answer raises, the iteration swallows the exception (an error
line is published) but leaves `is_speaking` stuck at true and the
last-answer-completion time unchanged; from that state every further
iteration idles without a capture attempt, whatever its inputs, until an
external notification clears `is_speaking`. -/
theorem answer_publish_failure_wedges (s : LoopState) (inp : IterInput)
    (text cap e : List Char)
    (hg : guardPasses s inp.now = true)
    (hc : inp.capture = .ok text)
    (hq : is_question text = true)
    (hn : normalizeQuestion text = some cap)
    (hqp : inp.qPublish = none)
    (hap : inp.aPublish = some e) :
    (loopIter s inp).1.st.is_speaking = true ∧
    (loopIter s inp).1.last_speak_time = s.last_speak_time ∧
    (loopIter s inp).2 =
      [Event.captureAttempt, Event.publishQ ("Q: ".toList ++ cap),
       Event.publishErr (errLine e)] ∧
    ∀ inp' : IterInput,
      loopIter (loopIter s inp).1 inp' = ((loopIter s inp).1, [Event.idleSleep]) := by
  have hres : loopIter s inp =
      ({ s with st := { s.st with is_speaking := true } },
       [Event.captureAttempt, Event.publishQ ("Q: ".toList ++ cap),
        Event.publishErr (errLine e)]) := by
    simp [loopIter, hg, hc, hq, hn, hqp, hap]
  rw [hres]
  refine ⟨rfl, rfl, rfl, ?_⟩
  intro inp'
  exact loopIter_guard_false _ inp' (guardPasses_of_speaking _ _ rfl)

/-- Witness for C9 at a concrete wedged iteration. -/
theorem answer_publish_failure_wedges_witness :
    (loopIter readyState inputAnswerUIFails).1.st.is_speaking = true ∧
    (loopIter readyState inputAnswerUIFails).1.last_speak_time =
      readyState.last_speak_time ∧
    (loopIter readyState inputAnswerUIFails).2 =
      [Event.captureAttempt,
       Event.publishQ ("Q: ".toList ++ "Are you there?".toList),
       Event.publishErr (errLine "ui closed".toList)] ∧
    loopIter (loopIter readyState inputAnswerUIFails).1 inputLater =
      ((loopIter readyState inputAnswerUIFails).1, [Event.idleSleep]) := by
  have h := answer_publish_failure_wedges readyState inputAnswerUIFails
    "are you there".toList "Are you there?".toList "ui closed".toList
    (by decide) rfl (by decide) (by decide) rfl rfl
  exact ⟨h.1, h.2.1, h.2.2.1, h.2.2.2 inputLater⟩

/-- C10: every transcript the classifier accepts is non-empty, so the
normalization step's access to the first character never indexes out of
bounds (it always produces a result). -/
theorem question_implies_nonempty (t : List Char) (h : is_question t = true) :
    t ≠ [] ∧ (normalizeQuestion t).isSome = true := by
  cases t with
  | nil => exact absurd h (by decide)
  | cons c rest => exact ⟨by simp, rfl⟩

/-- Witness for C10 at an accepted concrete transcript. -/
theorem question_implies_nonempty_witness :
    "what is the weather".toList ≠ [] ∧
    (normalizeQuestion "what is the weather".toList).isSome = true :=
  question_implies_nonempty "what is the weather".toList (by decide)

end AudioAssistant
